import Mathlib

/-!
Shallow embedding of the data layer in `blogango/models.py` (a Django blog
application).  Database tables are modelled as Lean lists of records, a row's
primary key is an `Option Nat` (`none` = not yet assigned, i.e. an unsaved
instance), and the implicit wall clock `datetime.now()` is passed explicitly
as a `now : DateTime` argument.  `save` methods become functions from a table
state and an instance to the new table state together with the stored row;
a Python exception raised by `save` becomes `Except.error`.
-/

namespace Blogango

/-- Decidable equality on `Except`, used to settle concrete save outcomes by
`decide`. -/
instance exceptDecEq {ε α : Type} [DecidableEq ε] [DecidableEq α] :
    DecidableEq (Except ε α) := fun x y =>
  match x, y with
  | Except.error a, Except.error b =>
    if h : a = b then Decidable.isTrue (by rw [h])
    else Decidable.isFalse (by intro hc; cases hc; exact h rfl)
  | Except.error _, Except.ok _ => Decidable.isFalse (fun hc => Except.noConfusion hc)
  | Except.ok _, Except.error _ => Decidable.isFalse (fun hc => Except.noConfusion hc)
  | Except.ok a, Except.ok b =>
    if h : a = b then Decidable.isTrue (by rw [h])
    else Decidable.isFalse (by intro hc; cases hc; exact h rfl)

/-- Simplified model of Python `datetime.datetime`: a day index (days since an
epoch, with a fixed 365-day year, which is all the precision the code under
study ever looks at) and a second-of-day.  Ordering is lexicographic.
`datetime.max` is the last second of year 9999. -/
structure DateTime where
  day : Nat
  sec : Nat
deriving DecidableEq, Repr

/-- The `year` attribute of a timestamp (years are 1-based). -/
def DateTime.year (d : DateTime) : Nat := 1 + d.day / 365

/-- Lexicographic `≤` on timestamps. -/
def DateTime.le (a b : DateTime) : Prop :=
  a.day < b.day ∨ (a.day = b.day ∧ a.sec ≤ b.sec)

/-- Lexicographic `<` on timestamps. -/
def DateTime.lt (a b : DateTime) : Prop :=
  a.day < b.day ∨ (a.day = b.day ∧ a.sec < b.sec)

instance (a b : DateTime) : Decidable (DateTime.le a b) := by
  unfold DateTime.le; infer_instance

instance (a b : DateTime) : Decidable (DateTime.lt a b) := by
  unfold DateTime.lt; infer_instance

/-- Python `d - timedelta(days=n)` (truncated at the epoch, which the claims
never reach). -/
def DateTime.subDays (d : DateTime) (n : Nat) : DateTime := ⟨d.day - n, d.sec⟩

/-- Python `datetime.max`: last second of year 9999, the sentinel used as the
default for `BlogEntry.created_on`. -/
def datetimeMax : DateTime := ⟨9999 * 365 - 1, 86399⟩

/-- Worker for `pySplit`: `cur` holds the characters of the current token in
reverse order. -/
def pySplitGo (cur : List Char) : List Char → List String
  | [] => if cur.isEmpty then [] else [String.mk cur.reverse]
  | c :: cs =>
    if c.isWhitespace then
      if cur.isEmpty then pySplitGo [] cs
      else String.mk cur.reverse :: pySplitGo [] cs
    else pySplitGo (c :: cur) cs

/-- Python `text.split()`: split on runs of whitespace, dropping empty
pieces. -/
def pySplit (s : String) : List String :=
  pySplitGo [] s.data

/-- Helper `_infer_title_or_slug(text)`: `'-'.join(text.split()[:5])`. -/
def inferTitleOrSlug (text : String) : String :=
  String.intercalate "-" ((pySplit text).take 5)

/-- Helper `_generate_summary(text)`: `' '.join(text.split()[:100])`. -/
def generateSummary (text : String) : String :=
  String.intercalate " " ((pySplit text).take 100)

/-- A character kept by `django.template.defaultfilters.slugify`'s first pass
(the regex `[^\w\s-]` deletes everything that is not a word character,
whitespace or a hyphen; this model covers the ASCII alphabet the repository
uses). -/
def slugKeep (c : Char) : Bool :=
  c.isAlphanum || c = '_' || c = '-' || c.isWhitespace

/-- Second pass of `slugify`: the regex `[-\s]+` collapses every run of
hyphens and whitespace to a single hyphen (`inRun` records whether the
previous character belonged to such a run). -/
def collapseGo (inRun : Bool) : List Char → List Char
  | [] => []
  | c :: cs =>
    if c = '-' || c.isWhitespace then
      if inRun then collapseGo true cs else '-' :: collapseGo true cs
    else c :: collapseGo false cs

/-- Django `slugify(value)` (ASCII fragment): delete characters outside
`[\w\s-]`, strip surrounding whitespace, lowercase, then collapse runs of
`[-\s]` to single hyphens. -/
def slugify (s : String) : String :=
  let kept := (s.data.filter slugKeep).map Char.toLower
  let stripped := (kept.dropWhile Char.isWhitespace).reverse.dropWhile Char.isWhitespace |>.reverse
  (collapseGo false stripped).asString

/-- The value wrapped by `MarkupField`: the code only ever reads `.raw`. -/
structure MarkupText where
  raw : String
deriving DecidableEq, Repr

/-- Row shape of the `Blog` model (singleton site configuration). -/
structure Blog where
  pk : Option Nat
  title : String
  tag_line : String
  entries_per_page : Int
  recents : Int
  recent_comments : Int
deriving DecidableEq, Repr

/-- The next fresh primary key the storage layer hands out for a table whose
used keys are `pks`. -/
def freshPk (pks : List (Option Nat)) : Nat :=
  (pks.foldl (fun m p => max m (p.getD 0)) 0) + 1

/-- Django `Model.save` at the storage layer for `Blog`: an instance without a
primary key is inserted with a fresh key, an instance with a key overwrites
the row with that key. -/
def blogPersist (db : List Blog) (b : Blog) : List Blog × Blog :=
  match b.pk with
  | none =>
    let b' := { b with pk := some (freshPk (db.map Blog.pk)) }
    (db ++ [b'], b')
  | some _ => (db.map (fun r => if r.pk == b.pk then b else r), b)

/-- `Blog.save`: "There should not be more than one Blog object" — if exactly
one `Blog` row exists and the instance has no id, raise
`Exception("Only one blog object allowed.")`; otherwise call the real
`save`. -/
def Blog.save (db : List Blog) (b : Blog) : Except String (List Blog × Blog) :=
  if db.length = 1 ∧ b.pk = none then
    Except.error "Only one blog object allowed."
  else
    Except.ok (blogPersist db b)

/-- Row shape of the `BlogEntry` model. -/
structure BlogEntry where
  pk : Option Nat
  title : String
  slug : String
  text : MarkupText
  summary : String
  created_on : Option DateTime
  created_by : Nat
  is_page : Bool
  is_published : Bool
  publish_date : Option DateTime
  comments_allowed : Bool
  is_rte : Bool
  meta_keywords : Option String
  meta_description : Option String
deriving DecidableEq, Repr

/-- Membership test of `BlogPublishedManager.get_queryset()`:
`filter(is_published=True, publish_date__lte=datetime.now())`.  A SQL
comparison against `NULL` is not true, so a row with `publish_date = none`
is filtered out. -/
def entryVisible (now : DateTime) (r : BlogEntry) : Bool :=
  r.is_published &&
    (match r.publish_date with
     | some d => decide (DateTime.le d now)
     | none => false)

/-- `BlogEntry.objects` (the default manager is `BlogPublishedManager`). -/
def blogEntryObjects (db : List BlogEntry) (now : DateTime) : List BlogEntry :=
  db.filter (entryVisible now)

/-- `BlogEntry.create_slug(initial_slug, i)`: append `"-%s" % i` unless
`i == 1`. -/
def create_slug (initial_slug : String) (i : Nat) : String :=
  if i ≠ 1 then initial_slug ++ "-" ++ Nat.repr i else initial_slug

/-- The body of the probe condition in `BlogEntry.save`:
`BlogEntry.objects.filter(slug__exact=created_slug).exclude(pk=self.pk)`,
nonempty iff the candidate slug is taken by some other row visible to the
default (published) manager. -/
def slugClash (db : List BlogEntry) (now : DateTime) (pk : Option Nat)
    (cand : String) : Bool :=
  !(((blogEntryObjects db now).filter (fun r => r.slug == cand)).filter
      (fun r => !(r.pk == pk))).isEmpty

/-- The `while True` probe loop of `BlogEntry.save`, with an explicit fuel.
The Python loop runs until a candidate is free; `BlogEntry.save` passes fuel
`db.length + 1`, which is proved sufficient below
(`slugClash_findSlug_eq_false`), so the fuel-exhausted base case is
unreachable. -/
def findSlug (db : List BlogEntry) (now : DateTime) (pk : Option Nat)
    (base : String) : Nat → Nat → String
  | 0, i => create_slug base i
  | fuel + 1, i =>
    let cand := create_slug base i
    if slugClash db now pk cand then findSlug db now pk base fuel (i + 1)
    else cand

/-- Python falsiness of an optional text field (`None` or `''`). -/
def optBlank : Option String → Bool
  | none => true
  | some s => s == ""

/-- Storage-layer `save` for `BlogEntry`, as for `Blog`: insert with a fresh
key when the instance has no primary key, else overwrite the row with that
key. -/
def entryPersist (db : List BlogEntry) (e : BlogEntry) : List BlogEntry × BlogEntry :=
  match e.pk with
  | none =>
    let e' := { e with pk := some (freshPk (db.map BlogEntry.pk)) }
    (db ++ [e'], e')
  | some _ => (db.map (fun r => if r.pk == e.pk then e else r), e)

/-- First statement pair of `BlogEntry.save`: `if self.title is None or
self.title == '': self.title = _infer_title_or_slug(self.text.raw)`
(a `None` title is represented by `""`). -/
def deriveTitle (e : BlogEntry) : BlogEntry :=
  if e.title = "" then { e with title := inferTitleOrSlug e.text.raw } else e

/-- Slug block of `BlogEntry.save`: `if self.slug is None or self.slug == '':
self.slug = slugify(self.title)`, followed by the `while True` uniqueness
probe and the assignment `self.slug = created_slug`. -/
def deriveSlug (db : List BlogEntry) (now : DateTime) (e : BlogEntry) : BlogEntry :=
  let e' := if e.slug = "" then { e with slug := slugify e.title } else e
  { e' with slug := findSlug db now e'.pk e'.slug (db.length + 1) 1 }

/-- Summary statement of `BlogEntry.save`: `if not self.summary:
self.summary = _generate_summary(self.text.raw)`. -/
def deriveSummary (e : BlogEntry) : BlogEntry :=
  if e.summary = "" then { e with summary := generateSummary e.text.raw } else e

/-- Meta-keyword defaulting in `BlogEntry.save`: `if not self.meta_keywords:
self.meta_keywords = self.summary`. -/
def deriveMetaKeywords (e : BlogEntry) : BlogEntry :=
  if optBlank e.meta_keywords then { e with meta_keywords := some e.summary } else e

/-- Meta-description defaulting in `BlogEntry.save`: `if not
self.meta_description: self.meta_description = self.summary`. -/
def deriveMetaDescription (e : BlogEntry) : BlogEntry :=
  if optBlank e.meta_description then { e with meta_description := some e.summary } else e

/-- Both meta-field defaulting statements of `BlogEntry.save` in order. -/
def deriveMeta (e : BlogEntry) : BlogEntry :=
  deriveMetaDescription (deriveMetaKeywords e)

/-- Publish-date fixup of `BlogEntry.save`: `if self.is_published: if
self.created_on.year == 9999: self.created_on = self.publish_date`.  The
attribute access `self.created_on.year` raises when `created_on` is
`None`. -/
def fixupCreatedOn (e : BlogEntry) : Except String BlogEntry :=
  if e.is_published then
    match e.created_on with
    | none => Except.error "AttributeError: NoneType object has no attribute year"
    | some d =>
      Except.ok (if d.year = 9999 then { e with created_on := e.publish_date } else e)
  else
    Except.ok e

/-- `BlogEntry.save`: title inference, slug derivation, slug uniqueness probe,
summary generation, meta-field defaulting, publish-date fixup, then the real
`save`. -/
def BlogEntry.save (db : List BlogEntry) (now : DateTime) (e : BlogEntry) :
    Except String (List BlogEntry × BlogEntry) :=
  match fixupCreatedOn (deriveMeta (deriveSummary (deriveSlug db now (deriveTitle e)))) with
  | Except.error msg => Except.error msg
  | Except.ok e' => Except.ok (entryPersist db e')

/-- Row shape of the `Comment` model (fields of the abstract `BaseComment`
inlined, as Django does). -/
structure Comment where
  pk : Option Nat
  text : String
  comment_for : Nat
  created_on : DateTime
  user_name : String
  user_url : String
  created_by : Option Nat
  email_id : String
  is_spam : Bool
  is_public : Option Bool
  user_ip : Option String
  user_agent : String
deriving DecidableEq, Repr

/-- `Comment.objects` (`CommentManager.get_queryset()`):
`filter(is_public=True)`. -/
def commentObjects (db : List Comment) : List Comment :=
  db.filter (fun c => c.is_public == some true)

/-- Storage-layer `save` for `Comment`. -/
def commentPersist (db : List Comment) (c : Comment) : List Comment × Comment :=
  match c.pk with
  | none =>
    let c' := { c with pk := some (freshPk (db.map Comment.pk)) }
    (db ++ [c'], c')
  | some _ => (db.map (fun r => if r.pk == c.pk then c else r), c)

/-- `Comment.save`: `if self.is_spam: self.is_public = False`, then the real
`save`. -/
def Comment.save (db : List Comment) (c : Comment) : List Comment × Comment :=
  let c' := if c.is_spam then { c with is_public := some false } else c
  commentPersist db c'

/-- `BlogEntry.get_num_comments(self)`:
`Comment.objects.filter(comment_for=self, is_spam=False).count()` — note the
query goes through the default `Comment.objects` manager, which already
filters `is_public=True`. -/
def get_num_comments (db : List Comment) (e : BlogEntry) : Nat :=
  ((commentObjects db).filter
    (fun c => some c.comment_for == e.pk && c.is_spam == false)).length

/-- Descending order on `created_on`, the comparator of
`order_by('-created_on')`. -/
def recentOrder (a b : Comment) : Prop := DateTime.le b.created_on a.created_on

instance (a b : Comment) : Decidable (recentOrder a b) := by
  unfold recentOrder; infer_instance

instance : IsTotal Comment recentOrder := by
  constructor
  intro a b
  unfold recentOrder DateTime.le
  omega

instance : IsTrans Comment recentOrder := by
  constructor
  intro a b c
  unfold recentOrder DateTime.le
  omega

/-- `BlogEntry.get_recent_comments(self)`:
`Comment.objects.filter(comment_for=self, is_spam=False,
created_on__gt=yesterday).order_by('-created_on')` where
`yesterday = datetime.now() - timedelta(days=1)`. -/
def get_recent_comments (db : List Comment) (e : BlogEntry) (now : DateTime) :
    List Comment :=
  List.insertionSort recentOrder
    ((commentObjects db).filter
      (fun c => some c.comment_for == e.pk && c.is_spam == false &&
        decide (DateTime.lt (now.subDays 1) c.created_on)))

/-- Written from the words of the spec sentence "the recent-comment listing
returns exactly the comments attached to that entry with is_spam = false and
created_on within the last 24 hours before the query time, ordered
oldest-first", for comparison with `get_recent_comments`. -/
def specRecentComments (db : List Comment) (e : BlogEntry) (now : DateTime) :
    List Comment :=
  List.insertionSort (fun a b => DateTime.le a.created_on b.created_on)
    (db.filter
      (fun c => some c.comment_for == e.pk && c.is_spam == false &&
        decide (DateTime.lt (now.subDays 1) c.created_on)))

/-- Written from the words of the claim "the comment-count helper returns the
number of comments attached to that entry whose is_spam flag is false (with
no other filter)", for comparison with `get_num_comments`. -/
def specNumComments (db : List Comment) (e : BlogEntry) : Nat :=
  (db.filter (fun c => some c.comment_for == e.pk && c.is_spam == false)).length

/-! Proof-internal measure functions used to show the slug probe's fuel
`db.length + 1` is always sufficient. -/

/-- The rows the probe condition can ever report: rows of the default
(published) queryset other than the entry being saved. -/
def probePool (db : List BlogEntry) (now : DateTime) (pk : Option Nat) :
    List BlogEntry :=
  (blogEntryObjects db now).filter (fun r => !(r.pk == pk))

/-- The candidate slugs the probe would try in the next `fuel` iterations
starting at counter value `i`. -/
def window (base : String) (i fuel : Nat) : List String :=
  (List.range' i fuel).map (create_slug base)

/-- How many pool rows occupy one of the next `fuel` candidate slugs. -/
def windowCount (db : List BlogEntry) (now : DateTime) (pk : Option Nat)
    (base : String) (i fuel : Nat) : Nat :=
  ((probePool db now pk).filter (fun r => (window base i fuel).contains r.slug)).length

/-- Numeric value of a decimal digit character. -/
def chVal (c : Char) : Nat := c.toNat - 48

/-- Value of a most-significant-first decimal digit string; inverse of
`Nat.repr` (proved below), used to show `Nat.repr` is injective. -/
def valMSD (l : List Char) : Nat := l.foldl (fun a c => 10 * a + chVal c) 0

/-! Concrete fixtures used in counterexamples and witnesses. -/

/-- A stored entry: unpublished, slug `"hello"`. -/
def entryFirst : BlogEntry :=
  { pk := some 1, title := "First", slug := "hello", text := ⟨"body"⟩,
    summary := "s", created_on := some ⟨100, 0⟩, created_by := 1,
    is_page := false, is_published := false, publish_date := some ⟨50, 0⟩,
    comments_allowed := true, is_rte := false, meta_keywords := some "k",
    meta_description := some "m" }

/-- Query time used by the fixtures. -/
def nowT : DateTime := ⟨200, 0⟩

/-- A fresh published entry whose supplied slug collides with `entryFirst`. -/
def entryNew : BlogEntry := { entryFirst with pk := none, title := "Hello", is_published := true }

/-- What saving `entryNew` next to the unpublished `entryFirst` stores. -/
def savedNew : BlogEntry := { entryNew with pk := some 2 }

/-- `entryFirst`, but published (visible to the default manager). -/
def rowShown : BlogEntry := { entryFirst with is_published := true }

/-- What saving `entryNew` next to the published `rowShown` stores. -/
def savedVisNew : BlogEntry := { entryNew with pk := some 2, slug := "hello-2" }

/-- A published stored entry with slug `"x"`. -/
def rowPub : BlogEntry := { entryFirst with slug := "x", is_published := true }

/-- An unpublished stored entry that shares slug `"x"` with `rowPub`. -/
def rowUnpub : BlogEntry := { entryFirst with pk := some 2, slug := "x" }

/-- A timestamp inside the sentinel year 9999 that is not `datetime.max`. -/
def d9999 : DateTime := ⟨9998 * 365, 0⟩

/-- An ordinary past timestamp. -/
def dPast : DateTime := ⟨50, 0⟩

/-- Another ordinary timestamp, distinct from `dPast`. -/
def dOther : DateTime := ⟨60, 0⟩

/-- A never-published entry whose `publish_date` lies in year 9999. -/
def entrySentinel : BlogEntry :=
  { entryFirst with
    slug := "a", is_published := true,
    created_on := some datetimeMax, publish_date := some d9999 }

/-- The row stored by the first save of `entrySentinel`, re-edited with a
different `publish_date`. -/
def entryResaved : BlogEntry :=
  { entrySentinel with created_on := some d9999, publish_date := some dPast }

/-- A never-published entry with an ordinary `publish_date`. -/
def entryPub : BlogEntry :=
  { entryFirst with
    is_published := true, created_on := some datetimeMax,
    publish_date := some dPast }

/-- The row stored by the first save of `entryPub`. -/
def storedPub : BlogEntry := { entryPub with created_on := some dPast }

/-- `storedPub` re-edited with a different `publish_date`. -/
def resavedInput : BlogEntry := { storedPub with publish_date := some dOther }

/-- A published entry with sentinel `created_on` and a null `publish_date`. -/
def entryNoPd : BlogEntry :=
  { entryFirst with
    is_published := true, created_on := some datetimeMax,
    publish_date := none }

/-- An entry saved with blank title, slug, summary and meta fields. -/
def entryBlank : BlogEntry :=
  { entryFirst with
    pk := none, title := "", slug := "",
    text := ⟨"one two three four five six seven"⟩, summary := "",
    meta_keywords := none, meta_description := none }

/-- The row stored by saving `entryBlank` into an empty table. -/
def savedBlank : BlogEntry :=
  { entryBlank with
    pk := some 1, title := "one-two-three-four-five",
    slug := "one-two-three-four-five",
    summary := "one two three four five six seven",
    meta_keywords := some "one two three four five six seven",
    meta_description := some "one two three four five six seven" }

/-- A spam comment submitted with `is_public = True`. -/
def cmtSpam : Comment :=
  { pk := none, text := "t", comment_for := 1, created_on := ⟨10, 0⟩,
    user_name := "u", user_url := "", created_by := none,
    email_id := "e@x.com", is_spam := true, is_public := some true,
    user_ip := none, user_agent := "ua" }

/-- A stored public non-spam comment. -/
def cmtPub : Comment := { cmtSpam with pk := some 1, is_spam := false }

/-- An older public non-spam comment on entry 1. -/
def cmtOld : Comment := { cmtPub with pk := some 1, created_on := ⟨10, 0⟩ }

/-- A newer public non-spam comment on entry 1. -/
def cmtNew : Comment := { cmtPub with pk := some 2, created_on := ⟨10, 5⟩ }

/-- A non-spam comment whose tri-state `is_public` is still unset. -/
def cmtNoFlag : Comment := { cmtPub with is_public := none }

/-- Query time shortly after `cmtNew` was created. -/
def nowRecent : DateTime := ⟨10, 6⟩

/-- The stored singleton `Blog` row. -/
def blogOne : Blog :=
  { pk := some 1, title := "B", tag_line := "t", entries_per_page := 10,
    recents := 5, recent_comments := 5 }

/-- A second stored `Blog` row. -/
def blogTwo : Blog := { blogOne with pk := some 2 }

/-- A fresh `Blog` instance with no identity. -/
def blogNew : Blog := { blogOne with pk := none }

/-! Injectivity of `Nat.repr`, needed to show distinct probe counters yield
distinct candidate slugs. -/

theorem toDigitsCore_append (f : Nat) : ∀ (n : Nat) (l : List Char),
    Nat.toDigitsCore 10 f n l = Nat.toDigitsCore 10 f n [] ++ l := by
  induction f with
  | zero => intro n l; simp [Nat.toDigitsCore]
  | succ f ih =>
    intro n l
    simp only [Nat.toDigitsCore]
    by_cases h : n / 10 = 0
    · simp [h]
    · simp only [h, if_false]
      rw [ih (n / 10) (Nat.digitChar (n % 10) :: l), ih (n / 10) [Nat.digitChar (n % 10)]]
      simp

theorem toDigitsCore_fuel (n : Nat) : ∀ (f g : Nat) (l : List Char), n < f → n < g →
    Nat.toDigitsCore 10 f n l = Nat.toDigitsCore 10 g n l := by
  induction n using Nat.strong_induction_on with
  | _ n ih =>
    intro f g l hf hg
    obtain ⟨f', rfl⟩ : ∃ f', f = f' + 1 := ⟨f - 1, by omega⟩
    obtain ⟨g', rfl⟩ : ∃ g', g = g' + 1 := ⟨g - 1, by omega⟩
    simp only [Nat.toDigitsCore]
    by_cases h : n / 10 = 0
    · simp [h]
    · simp only [h, if_false]
      have hdiv : n / 10 < n := Nat.div_lt_self (by omega) (by omega)
      exact ih (n / 10) hdiv f' g' _ (by omega) (by omega)

theorem valMSD_append (l : List Char) (c : Char) :
    valMSD (l ++ [c]) = 10 * valMSD l + chVal c := by
  simp [valMSD, List.foldl_append]

theorem chVal_digitChar : ∀ d, d < 10 → chVal (Nat.digitChar d) = d := by decide

theorem valMSD_toDigits (n : Nat) : valMSD (Nat.toDigits 10 n) = n := by
  induction n using Nat.strong_induction_on with
  | _ n ih =>
    unfold Nat.toDigits
    simp only [Nat.toDigitsCore]
    by_cases h : n / 10 = 0
    · simp only [h, if_pos]
      have : chVal (Nat.digitChar (n % 10)) = n % 10 := chVal_digitChar _ (by omega)
      simp [valMSD, this]
      omega
    · simp only [h, if_false]
      have hdiv : n / 10 < n := Nat.div_lt_self (by omega) (by omega)
      rw [toDigitsCore_append, toDigitsCore_fuel (n / 10) n (n / 10 + 1) [] (by omega) (by omega)]
      rw [show Nat.toDigitsCore 10 (n / 10 + 1) (n / 10) [] = Nat.toDigits 10 (n / 10) from rfl]
      rw [valMSD_append, ih (n / 10) hdiv, chVal_digitChar _ (by omega)]
      omega

theorem repr_injective {a b : Nat} (h : Nat.repr a = Nat.repr b) : a = b := by
  have hd : Nat.toDigits 10 a = Nat.toDigits 10 b := by
    have h2 := congrArg String.data h
    simpa [Nat.repr, List.asString] using h2
  have h3 := congrArg valMSD hd
  rwa [valMSD_toDigits, valMSD_toDigits] at h3

/-! Distinctness of the probe's candidate slugs. -/

theorem create_slug_one (base : String) : create_slug base 1 = base := by
  simp [create_slug]

theorem create_slug_ne (base : String) {i j : Nat} (hi : 1 ≤ i) (hij : i < j) :
    create_slug base i ≠ create_slug base j := by
  intro h
  have hj : j ≠ 1 := by omega
  unfold create_slug at h
  rw [if_pos hj] at h
  by_cases h1 : i = 1
  · rw [h1, if_neg (by simp)] at h
    have hlen := congrArg (fun s => s.data.length) h
    simp only [String.data_append, List.length_append, List.length_cons,
      List.length_nil] at hlen
    omega
  · rw [if_pos h1] at h
    have hd := congrArg String.data h
    simp only [String.data_append, List.append_assoc] at hd
    have hr : (Nat.repr i).data = (Nat.repr j).data :=
      List.append_cancel_left (List.append_cancel_left hd)
    exact absurd (repr_injective (String.ext hr)) (by omega)

/-! The probe terminates within its fuel: counting lemmas. -/

theorem length_filter_mono {α : Type} (l : List α) (p q : α → Bool)
    (hpq : ∀ a, p a = true → q a = true) :
    (l.filter p).length ≤ (l.filter q).length := by
  induction l with
  | nil => simp
  | cons b l ih =>
    simp only [List.filter_cons]
    by_cases hb : p b = true
    · rw [if_pos hb, if_pos (hpq b hb)]
      simpa using ih
    · rw [if_neg hb]
      by_cases hqb : q b = true
      · rw [if_pos hqb]
        simp only [List.length_cons]
        omega
      · rw [if_neg hqb]
        exact ih

theorem length_filter_lt {α : Type} (l : List α) (p q : α → Bool)
    (hpq : ∀ a, p a = true → q a = true) (a₀ : α) (ha : a₀ ∈ l)
    (hqa : q a₀ = true) (hpa : p a₀ = false) :
    (l.filter p).length < (l.filter q).length := by
  induction l with
  | nil => cases ha
  | cons b l ih =>
    rcases List.mem_cons.mp ha with rfl | hmem
    · simp only [List.filter_cons]
      rw [if_neg (by simp [hpa]), if_pos hqa]
      simp only [List.length_cons]
      exact Nat.lt_succ_of_le (length_filter_mono l p q hpq)
    · have hlt := ih hmem
      simp only [List.filter_cons]
      by_cases hb : p b = true
      · rw [if_pos hb, if_pos (hpq b hb)]
        simpa using hlt
      · rw [if_neg hb]
        by_cases hqb : q b = true
        · rw [if_pos hqb]
          simp only [List.length_cons]
          omega
        · rw [if_neg hqb]
          exact hlt

theorem window_succ (base : String) (i fuel : Nat) :
    window base i (fuel + 1) = create_slug base i :: window base (i + 1) fuel := by
  simp [window, List.range'_succ]

theorem not_mem_window (base : String) {i fuel : Nat} (hi : 1 ≤ i) :
    create_slug base i ∉ window base (i + 1) fuel := by
  intro hmem
  simp only [window, List.mem_map] at hmem
  obtain ⟨j, hj, heq⟩ := hmem
  rw [List.mem_range'] at hj
  obtain ⟨k, _, rfl⟩ := hj
  exact create_slug_ne base hi (by omega) heq.symm

theorem slugClash_eq_false_iff (db : List BlogEntry) (now : DateTime)
    (pk : Option Nat) (cand : String) :
    slugClash db now pk cand = false ↔
      ∀ r ∈ probePool db now pk, r.slug ≠ cand := by
  unfold slugClash probePool
  rw [Bool.not_eq_false']
  rw [List.isEmpty_iff, List.eq_nil_iff_forall_not_mem]
  constructor
  · intro h r hr hslug
    have hr' := List.mem_filter.mp hr
    exact h r (List.mem_filter.mpr ⟨List.mem_filter.mpr ⟨hr'.1, by simp [hslug]⟩, hr'.2⟩)
  · intro h r hr
    have hr1 := List.mem_filter.mp hr
    have hr2 := List.mem_filter.mp hr1.1
    exact h r (List.mem_filter.mpr ⟨hr2.1, hr1.2⟩) (by simpa using hr2.2)

theorem slugClash_findSlug (db : List BlogEntry) (now : DateTime)
    (pk : Option Nat) (base : String) :
    ∀ fuel i, 1 ≤ i → windowCount db now pk base i fuel < fuel →
      slugClash db now pk (findSlug db now pk base fuel i) = false := by
  intro fuel
  induction fuel with
  | zero =>
    intro i _ h
    exact absurd h (by omega)
  | succ f ih =>
    intro i hi hcnt
    by_cases hc : slugClash db now pk (create_slug base i) = true
    · rw [show findSlug db now pk base (f + 1) i = findSlug db now pk base f (i + 1) from
        by simp [findSlug, hc]]
      apply ih (i + 1) (by omega)
      obtain ⟨r₀, hr₀, hslug⟩ : ∃ r ∈ probePool db now pk, r.slug = create_slug base i := by
        by_contra hno
        push_neg at hno
        rw [(slugClash_eq_false_iff db now pk (create_slug base i)).mpr hno] at hc
        cases hc
      have hmono : ∀ r : BlogEntry, ((window base (i + 1) f).contains r.slug) = true →
          ((window base i (f + 1)).contains r.slug) = true := by
        intro r hr
        rw [window_succ, List.contains_cons]
        simp only [hr, Bool.or_true]
      have hqa : ((window base i (f + 1)).contains r₀.slug) = true := by
        rw [window_succ, List.contains_cons, hslug]
        simp
      have hpa : ((window base (i + 1) f).contains r₀.slug) = false := by
        rw [hslug]
        rw [Bool.eq_false_iff]
        intro hcontains
        obtain ⟨y, hy, hbeq⟩ := List.contains_iff_exists_mem_beq.mp hcontains
        exact not_mem_window base hi (beq_iff_eq.mp hbeq ▸ hy)
      have hlt := length_filter_lt (probePool db now pk)
        (fun r => (window base (i + 1) f).contains r.slug)
        (fun r => (window base i (f + 1)).contains r.slug)
        hmono r₀ hr₀ hqa hpa
      unfold windowCount at hcnt ⊢
      omega
    · rw [show findSlug db now pk base (f + 1) i = create_slug base i from
        by simp [findSlug, hc]]
      exact Bool.not_eq_true _ ▸ Bool.of_not_eq_true hc

/-! Field-preservation facts for the stages of `BlogEntry.save`. -/

theorem deriveTitle_fields (e : BlogEntry) :
    (deriveTitle e).slug = e.slug ∧ (deriveTitle e).pk = e.pk ∧
    (deriveTitle e).created_on = e.created_on ∧
    (deriveTitle e).publish_date = e.publish_date ∧
    (deriveTitle e).is_published = e.is_published ∧
    (deriveTitle e).text = e.text := by
  unfold deriveTitle
  split <;> exact ⟨rfl, rfl, rfl, rfl, rfl, rfl⟩

theorem deriveTitle_of_blank (e : BlogEntry) (h : e.title = "") :
    (deriveTitle e).title = inferTitleOrSlug e.text.raw := by
  unfold deriveTitle
  rw [if_pos h]

theorem deriveSlug_fields (db : List BlogEntry) (now : DateTime) (e : BlogEntry) :
    (deriveSlug db now e).pk = e.pk ∧ (deriveSlug db now e).title = e.title ∧
    (deriveSlug db now e).created_on = e.created_on ∧
    (deriveSlug db now e).publish_date = e.publish_date ∧
    (deriveSlug db now e).is_published = e.is_published ∧
    (deriveSlug db now e).text = e.text := by
  unfold deriveSlug
  split <;> exact ⟨rfl, rfl, rfl, rfl, rfl, rfl⟩

theorem deriveSlug_slug (db : List BlogEntry) (now : DateTime) (e : BlogEntry) :
    (deriveSlug db now e).slug =
      findSlug db now e.pk (if e.slug = "" then slugify e.title else e.slug)
        (db.length + 1) 1 := by
  unfold deriveSlug
  split <;> rfl

theorem deriveSummary_fields (e : BlogEntry) :
    (deriveSummary e).slug = e.slug ∧ (deriveSummary e).pk = e.pk ∧
    (deriveSummary e).title = e.title ∧
    (deriveSummary e).created_on = e.created_on ∧
    (deriveSummary e).publish_date = e.publish_date ∧
    (deriveSummary e).is_published = e.is_published := by
  unfold deriveSummary
  split <;> exact ⟨rfl, rfl, rfl, rfl, rfl, rfl⟩

theorem deriveMeta_fields (e : BlogEntry) :
    (deriveMeta e).slug = e.slug ∧ (deriveMeta e).pk = e.pk ∧
    (deriveMeta e).title = e.title ∧
    (deriveMeta e).created_on = e.created_on ∧
    (deriveMeta e).publish_date = e.publish_date ∧
    (deriveMeta e).is_published = e.is_published := by
  unfold deriveMeta deriveMetaDescription deriveMetaKeywords
  split <;> split <;> exact ⟨rfl, rfl, rfl, rfl, rfl, rfl⟩

theorem fixupCreatedOn_ok_cases {e e' : BlogEntry}
    (h : fixupCreatedOn e = Except.ok e') :
    e' = e ∨ e' = { e with created_on := e.publish_date } := by
  unfold fixupCreatedOn at h
  by_cases hp : e.is_published = true
  · rw [if_pos hp] at h
    cases hco : e.created_on with
    | none =>
      simp only [hco] at h
      exact Except.noConfusion h
    | some d =>
      simp only [hco] at h
      by_cases hy : d.year = 9999
      · right
        rw [if_pos hy] at h
        exact ((Except.ok.injEq _ _).mp h).symm
      · left
        rw [if_neg hy] at h
        exact ((Except.ok.injEq _ _).mp h).symm
  · rw [if_neg hp] at h
    exact Or.inl ((Except.ok.injEq _ _).mp h).symm

theorem entryPersist_cases (db : List BlogEntry) (e : BlogEntry) :
    (entryPersist db e).2 = e ∨
    (entryPersist db e).2 = { e with pk := some (freshPk (db.map BlogEntry.pk)) } := by
  unfold entryPersist
  cases e.pk with
  | none => right; rfl
  | some k => left; rfl

theorem save_ok_cases {db : List BlogEntry} {now : DateTime} {e : BlogEntry}
    {db' : List BlogEntry} {e' : BlogEntry}
    (h : BlogEntry.save db now e = Except.ok (db', e')) :
    ∃ e7, fixupCreatedOn (deriveMeta (deriveSummary (deriveSlug db now (deriveTitle e)))) =
        Except.ok e7 ∧ (db', e') = entryPersist db e7 := by
  unfold BlogEntry.save at h
  cases hf : fixupCreatedOn (deriveMeta (deriveSummary (deriveSlug db now (deriveTitle e)))) with
  | error msg => rw [hf] at h; cases h
  | ok e7 =>
    rw [hf] at h
    exact ⟨e7, rfl, ((Except.ok.injEq _ _).mp h).symm⟩

theorem commentPersist_cases (db : List Comment) (c : Comment) :
    (commentPersist db c).2 = c ∨
    (commentPersist db c).2 = { c with pk := some (freshPk (db.map Comment.pk)) } := by
  unfold commentPersist
  cases c.pk with
  | none => right; rfl
  | some k => left; rfl

theorem save_ok_slug {db : List BlogEntry} {now : DateTime} {e : BlogEntry}
    {db' : List BlogEntry} {e' : BlogEntry}
    (h : BlogEntry.save db now e = Except.ok (db', e')) :
    e'.slug = findSlug db now e.pk
      (if e.slug = "" then slugify (deriveTitle e).title else e.slug)
      (db.length + 1) 1 := by
  obtain ⟨e7, hfix, hpersist⟩ := save_ok_cases h
  have he' : e' = (entryPersist db e7).2 := congrArg Prod.snd hpersist
  have h1 : e'.slug = e7.slug := by
    rcases entryPersist_cases db e7 with hc | hc
    · rw [he', hc]
    · rw [he', hc]
  have h2 : e7.slug = (deriveSlug db now (deriveTitle e)).slug := by
    rcases fixupCreatedOn_ok_cases hfix with hc | hc <;>
      rw [hc] <;>
      simp only [(deriveMeta_fields _).1, (deriveSummary_fields _).1]
  rw [h1, h2, deriveSlug_slug]
  rw [(deriveTitle_fields e).2.1, (deriveTitle_fields e).1]

theorem save_ok_title {db : List BlogEntry} {now : DateTime} {e : BlogEntry}
    {db' : List BlogEntry} {e' : BlogEntry}
    (h : BlogEntry.save db now e = Except.ok (db', e')) :
    e'.title = (deriveTitle e).title := by
  obtain ⟨e7, hfix, hpersist⟩ := save_ok_cases h
  have he' : e' = (entryPersist db e7).2 := congrArg Prod.snd hpersist
  have h1 : e'.title = e7.title := by
    rcases entryPersist_cases db e7 with hc | hc
    · rw [he', hc]
    · rw [he', hc]
  have h2 : e7.title = (deriveSlug db now (deriveTitle e)).title := by
    rcases fixupCreatedOn_ok_cases hfix with hc | hc <;>
      rw [hc] <;>
      simp only [(deriveMeta_fields _).2.2.1, (deriveSummary_fields _).2.2.1]
  rw [h1, h2, (deriveSlug_fields db now (deriveTitle e)).2.1]

theorem save_ok_of_created_on_some {db : List BlogEntry} {now : DateTime}
    {e : BlogEntry} (d : DateTime) (hco : e.created_on = some d) :
    ∃ p, BlogEntry.save db now e = Except.ok p := by
  unfold BlogEntry.save
  have hE : (deriveMeta (deriveSummary (deriveSlug db now (deriveTitle e)))).created_on = some d := by
    rw [(deriveMeta_fields _).2.2.2.1, (deriveSummary_fields _).2.2.2.1,
      (deriveSlug_fields _ _ _).2.2.1, (deriveTitle_fields _).2.2.1, hco]
  unfold fixupCreatedOn
  by_cases hp : (deriveMeta (deriveSummary (deriveSlug db now (deriveTitle e)))).is_published = true
  · rw [if_pos hp, hE]
    exact ⟨_, rfl⟩
  · rw [if_neg hp]
    exact ⟨_, rfl⟩

theorem save_ok_created_on_sentinel {db : List BlogEntry} {now : DateTime}
    {e : BlogEntry} {db' : List BlogEntry} {e' : BlogEntry}
    (hpub : e.is_published = true) (hco : e.created_on = some datetimeMax)
    (h : BlogEntry.save db now e = Except.ok (db', e')) :
    e'.created_on = e.publish_date := by
  obtain ⟨e7, hfix, hpersist⟩ := save_ok_cases h
  have he' : e' = (entryPersist db e7).2 := congrArg Prod.snd hpersist
  have h1 : e'.created_on = e7.created_on := by
    rcases entryPersist_cases db e7 with hc | hc
    · rw [he', hc]
    · rw [he', hc]
  set E := deriveMeta (deriveSummary (deriveSlug db now (deriveTitle e))) with hEdef
  have hEco : E.created_on = some datetimeMax := by
    rw [hEdef, (deriveMeta_fields _).2.2.2.1, (deriveSummary_fields _).2.2.2.1,
      (deriveSlug_fields _ _ _).2.2.1, (deriveTitle_fields _).2.2.1, hco]
  have hEpub : E.is_published = true := by
    rw [hEdef, (deriveMeta_fields _).2.2.2.2.2, (deriveSummary_fields _).2.2.2.2.2,
      (deriveSlug_fields _ _ _).2.2.2.2.1, (deriveTitle_fields _).2.2.2.2.1, hpub]
  have hEpd : E.publish_date = e.publish_date := by
    rw [hEdef, (deriveMeta_fields _).2.2.2.2.1, (deriveSummary_fields _).2.2.2.2.1,
      (deriveSlug_fields _ _ _).2.2.2.1, (deriveTitle_fields _).2.2.2.1]
  unfold fixupCreatedOn at hfix
  rw [if_pos hEpub] at hfix
  simp only [hEco] at hfix
  have hymax : datetimeMax.year = 9999 := by decide
  rw [if_pos hymax] at hfix
  have h7 : e7 = { E with created_on := E.publish_date } :=
    ((Except.ok.injEq _ _).mp hfix).symm
  rw [h1, h7]
  exact hEpd

theorem save_ok_created_on_stable {db : List BlogEntry} {now : DateTime}
    {e : BlogEntry} {db' : List BlogEntry} {e' : BlogEntry} (d : DateTime)
    (hco : e.created_on = some d) (hy : d.year ≠ 9999)
    (h : BlogEntry.save db now e = Except.ok (db', e')) :
    e'.created_on = some d := by
  obtain ⟨e7, hfix, hpersist⟩ := save_ok_cases h
  have he' : e' = (entryPersist db e7).2 := congrArg Prod.snd hpersist
  have h1 : e'.created_on = e7.created_on := by
    rcases entryPersist_cases db e7 with hc | hc
    · rw [he', hc]
    · rw [he', hc]
  set E := deriveMeta (deriveSummary (deriveSlug db now (deriveTitle e))) with hEdef
  have hEco : E.created_on = some d := by
    rw [hEdef, (deriveMeta_fields _).2.2.2.1, (deriveSummary_fields _).2.2.2.1,
      (deriveSlug_fields _ _ _).2.2.1, (deriveTitle_fields _).2.2.1, hco]
  unfold fixupCreatedOn at hfix
  by_cases hp : E.is_published = true
  · rw [if_pos hp] at hfix
    simp only [hEco] at hfix
    rw [if_neg hy] at hfix
    have h7 : e7 = E := ((Except.ok.injEq _ _).mp hfix).symm
    rw [h1, h7, hEco]
  · rw [if_neg hp] at hfix
    have h7 : e7 = E := ((Except.ok.injEq _ _).mp hfix).symm
    rw [h1, h7, hEco]

theorem save_ok_is_published {db : List BlogEntry} {now : DateTime}
    {e : BlogEntry} {db' : List BlogEntry} {e' : BlogEntry}
    (h : BlogEntry.save db now e = Except.ok (db', e')) :
    e'.is_published = e.is_published := by
  obtain ⟨e7, hfix, hpersist⟩ := save_ok_cases h
  have he' : e' = (entryPersist db e7).2 := congrArg Prod.snd hpersist
  have h1 : e'.is_published = e7.is_published := by
    rcases entryPersist_cases db e7 with hc | hc
    · rw [he', hc]
    · rw [he', hc]
  have h2 : e7.is_published =
      (deriveMeta (deriveSummary (deriveSlug db now (deriveTitle e)))).is_published := by
    rcases fixupCreatedOn_ok_cases hfix with hc | hc <;> rw [hc]
  rw [h1, h2, (deriveMeta_fields _).2.2.2.2.2, (deriveSummary_fields _).2.2.2.2.2,
    (deriveSlug_fields _ _ _).2.2.2.2.1, (deriveTitle_fields _).2.2.2.2.1]

/-! The ten claims. -/

/-- C1, counterexample: the slug collision probe runs over the default
manager `BlogEntry.objects`, which only returns published entries with a
non-future `publish_date`.  Saving `entryNew` (supplied slug `"hello"`,
published) next to the stored unpublished `entryFirst` (slug `"hello"`)
succeeds and stores two distinct entries sharing the slug `"hello"`,
refuting "after save no two distinct entries share a slug". -/
theorem C1_counterexample :
    BlogEntry.save [entryFirst] nowT entryNew =
      Except.ok ([entryFirst, savedNew], savedNew) ∧
    entryFirst.slug = savedNew.slug ∧ entryFirst.pk ≠ savedNew.pk := by
  refine ⟨by decide, by decide, by decide⟩

/-- C1, amended: for every entry save, the probe tries base, base-2, base-3,
… against the default published queryset (`is_published = true` and
`publish_date ≤ now`), excluding the entry's own identity, and assigns the
first unused candidate; hence after a successful save no entry of the
pre-save table that is visible to the default manager and is distinct from
the saved entry carries the saved entry's slug.  Uniqueness among all
entries (including unpublished or future-dated ones) does not hold. -/
theorem C1_slug_unique_in_published_scope (db : List BlogEntry)
    (now : DateTime) (e : BlogEntry) (db' : List BlogEntry) (e' : BlogEntry)
    (h : BlogEntry.save db now e = Except.ok (db', e')) :
    ∀ r ∈ db, entryVisible now r = true → r.pk ≠ e.pk → r.slug ≠ e'.slug := by
  intro r hr hvis hpk
  rw [save_ok_slug h]
  have hcnt : windowCount db now e.pk
      (if e.slug = "" then slugify (deriveTitle e).title else e.slug)
      1 (db.length + 1) < db.length + 1 := by
    apply Nat.lt_succ_of_le
    unfold windowCount
    calc ((probePool db now e.pk).filter _).length
        ≤ (probePool db now e.pk).length := List.length_filter_le _ _
      _ ≤ (blogEntryObjects db now).length := by
          unfold probePool; exact List.length_filter_le _ _
      _ ≤ db.length := by
          unfold blogEntryObjects; exact List.length_filter_le _ _
  have hfree := slugClash_findSlug db now e.pk
    (if e.slug = "" then slugify (deriveTitle e).title else e.slug)
    (db.length + 1) 1 (le_refl 1) hcnt
  rw [slugClash_eq_false_iff] at hfree
  apply hfree r
  apply List.mem_filter.mpr
  refine ⟨List.mem_filter.mpr ⟨hr, hvis⟩, ?_⟩
  have : (r.pk == e.pk) = false := beq_eq_false_iff_ne.mpr hpk
  rw [this]
  rfl

/-- C1, witness for the amended theorem at a concrete input: saving
`entryNew` next to the published `rowShown` (both slug `"hello"`) stores
slug `"hello-2"`, distinct from `rowShown`'s. -/
theorem C1_slug_unique_in_published_scope_witness :
    rowShown.slug ≠ savedVisNew.slug :=
  C1_slug_unique_in_published_scope [rowShown] nowT entryNew
    [rowShown, savedVisNew] savedVisNew (by decide) rowShown (by decide)
    (by decide) (by decide)

/-- C2, counterexample: `get_recent_comments` orders by `-created_on`
(newest first) and goes through the default manager's `is_public=True`
filter, while the claim demands oldest-first ordering with no visibility
filter; the two disagree already on a store of two public non-spam
comments. -/
theorem C2_counterexample :
    get_recent_comments [cmtOld, cmtNew] entryFirst nowRecent = [cmtNew, cmtOld] ∧
    specRecentComments [cmtOld, cmtNew] entryFirst nowRecent = [cmtOld, cmtNew] ∧
    get_recent_comments [cmtOld, cmtNew] entryFirst nowRecent ≠
      specRecentComments [cmtOld, cmtNew] entryFirst nowRecent := by
  refine ⟨by decide, by decide, by decide⟩

/-- C2, amended: for every entry and query time, the recent-comment listing
returns exactly the comments attached to the entry that have
`is_public = true`, `is_spam = false` and `created_on` strictly within the
last 24 hours before the query time, ordered newest-first. -/
theorem C2_recent_comments_amended (db : List Comment) (e : BlogEntry)
    (now : DateTime) :
    (∀ c : Comment, c ∈ get_recent_comments db e now ↔
      (c ∈ db ∧ c.is_public = some true ∧ some c.comment_for = e.pk ∧
        c.is_spam = false ∧ DateTime.lt (now.subDays 1) c.created_on)) ∧
    List.Pairwise recentOrder (get_recent_comments db e now) := by
  constructor
  · intro c
    unfold get_recent_comments
    rw [(List.perm_insertionSort recentOrder _).mem_iff]
    simp only [List.mem_filter, commentObjects, Bool.and_eq_true, beq_iff_eq,
      decide_eq_true_eq]
    tauto
  · exact List.sorted_insertionSort recentOrder _

/-- C3, counterexample: `get_num_comments` goes through the default manager
`Comment.objects`, which filters `is_public=True`; a non-spam comment whose
tri-state `is_public` is unset is counted by the claim's description but not
by the code. -/
theorem C3_counterexample :
    get_num_comments [cmtNoFlag] entryFirst = 0 ∧
    specNumComments [cmtNoFlag] entryFirst = 1 ∧
    get_num_comments [cmtNoFlag] entryFirst ≠ specNumComments [cmtNoFlag] entryFirst := by
  refine ⟨by decide, by decide, by decide⟩

/-- C3, amended: for every entry, the comment-count helper returns the number
of comments attached to that entry with `is_spam = false` and
`is_public = true` (the latter imposed by the default manager). -/
theorem C3_num_comments_amended (db : List Comment) (e : BlogEntry) :
    get_num_comments db e =
      (db.filter (fun c =>
        (some c.comment_for == e.pk && c.is_spam == false) &&
          c.is_public == some true)).length := by
  unfold get_num_comments commentObjects
  rw [List.filter_filter]

/-- C4: for every comment save, if `is_spam` is true then the stored comment
has `is_public = false` regardless of the caller-supplied value; and the
default comment listing (`Comment.objects`, which filters
`is_public=True`) never contains a row with `is_public = false`. -/
theorem C4_spam_forces_private :
    (∀ (db : List Comment) (c : Comment), c.is_spam = true →
      ((Comment.save db c).2).is_public = some false) ∧
    ∀ (db : List Comment) (x : Comment), x ∈ commentObjects db →
      x.is_public ≠ some false := by
  constructor
  · intro db c hspam
    have hsave : Comment.save db c = commentPersist db { c with is_public := some false } := by
      unfold Comment.save
      rw [if_pos hspam]
    rw [hsave]
    rcases commentPersist_cases db { c with is_public := some false } with hc | hc <;>
      rw [hc]
  · intro db x hx
    have h2 := (List.mem_filter.mp hx).2
    simp only [beq_iff_eq] at h2
    rw [h2]
    simp

/-- C4, witness: the spam comment `cmtSpam` (submitted with
`is_public = some true`) is stored with `is_public = some false`, and the
listed comment `cmtPub` is not private. -/
theorem C4_spam_forces_private_witness :
    ((Comment.save [] cmtSpam).2).is_public = some false ∧
    cmtPub.is_public ≠ some false :=
  ⟨C4_spam_forces_private.1 [] cmtSpam rfl,
   C4_spam_forces_private.2 [cmtPub] cmtPub (by decide)⟩

/-- C5: saving a `Blog` with no assigned identity fails with
"Only one blog object allowed." when exactly one `Blog` row exists — the
error return carries no table, so the stored row is untouched — while a save
whose identity is already assigned always reaches the storage layer. -/
theorem C5_blog_singleton_guard :
    (∀ (db : List Blog) (b : Blog), db.length = 1 → b.pk = none →
      Blog.save db b = Except.error "Only one blog object allowed.") ∧
    ∀ (db : List Blog) (b : Blog) (k : Nat), b.pk = some k →
      Blog.save db b = Except.ok (blogPersist db b) := by
  constructor
  · intro db b h1 h2
    unfold Blog.save
    rw [if_pos ⟨h1, h2⟩]
  · intro db b k hk
    unfold Blog.save
    rw [if_neg (by simp [hk])]

/-- C5, witness: with the single stored row `blogOne`, creating `blogNew`
fails with the configuration error while re-saving `blogOne` succeeds. -/
theorem C5_blog_singleton_guard_witness :
    Blog.save [blogOne] blogNew = Except.error "Only one blog object allowed." ∧
    Blog.save [blogOne] blogOne = Except.ok (blogPersist [blogOne] blogOne) :=
  ⟨C5_blog_singleton_guard.1 [blogOne] blogNew rfl rfl,
   C5_blog_singleton_guard.2 [blogOne] blogOne 1 rfl⟩

/-- C6: every entry saved with a blank title is stored with a title equal to
the first five whitespace-separated tokens of the raw markup text joined
with hyphens. -/
theorem C6_blank_title_inference (db : List BlogEntry) (now : DateTime)
    (e : BlogEntry) (db' : List BlogEntry) (e' : BlogEntry) (ht : e.title = "")
    (h : BlogEntry.save db now e = Except.ok (db', e')) :
    e'.title = String.intercalate "-" ((pySplit e.text.raw).take 5) := by
  rw [save_ok_title h, deriveTitle_of_blank e ht]
  rfl

/-- C6, witness: saving `entryBlank` (blank title, seven-word text) stores
the title "one-two-three-four-five". -/
theorem C6_blank_title_inference_witness :
    savedBlank.title = String.intercalate "-" ((pySplit entryBlank.text.raw).take 5) :=
  C6_blank_title_inference [] nowT entryBlank [savedBlank] savedBlank rfl (by decide)

/-- C7, counterexample: the fixup only tests `created_on.year == 9999`, so a
first publish whose `publish_date` itself lies in year 9999 leaves the entry
in the "sentinel" state, and a second save with a different `publish_date`
overwrites `created_on` again — the claim's "subsequent save leaves
created_on unchanged" fails.  First save: `created_on` becomes `d9999`;
re-save with `publish_date = dPast`: `created_on` becomes `dPast`. -/
theorem C7_counterexample :
    (BlogEntry.save [entrySentinel] nowT entrySentinel).map
      (fun p => p.2.created_on) = Except.ok (some d9999) ∧
    entryResaved.created_on = some d9999 ∧
    entryResaved.publish_date ≠ entrySentinel.publish_date ∧
    (BlogEntry.save [entryResaved] nowT entryResaved).map
      (fun p => p.2.created_on) = Except.ok (some dPast) ∧
    some dPast ≠ some d9999 := by
  refine ⟨by decide, by decide, by decide, by decide, by decide⟩

/-- C7, amended: for an entry with `created_on` at the sentinel
`datetime.max` saved with `is_published = true` and a non-null
`publish_date` whose year is not 9999: after the save `created_on` equals
`publish_date` exactly, and any subsequent save of the stored entry with a
different `publish_date` leaves `created_on` unchanged. -/
theorem C7_first_publish_sets_created_on (db : List BlogEntry)
    (now : DateTime) (e : BlogEntry) (db' : List BlogEntry) (e' : BlogEntry)
    (p : DateTime) (hpub : e.is_published = true)
    (hco : e.created_on = some datetimeMax) (hpd : e.publish_date = some p)
    (hy : p.year ≠ 9999)
    (h : BlogEntry.save db now e = Except.ok (db', e')) :
    e'.created_on = some p ∧
    ∀ (db2 : List BlogEntry) (now2 : DateTime) (q : Option DateTime)
      (db'' : List BlogEntry) (e'' : BlogEntry),
      BlogEntry.save db2 now2 { e' with publish_date := q } = Except.ok (db'', e'') →
      e''.created_on = some p := by
  have h1 : e'.created_on = some p := by
    rw [save_ok_created_on_sentinel hpub hco h, hpd]
  refine ⟨h1, ?_⟩
  intro db2 now2 q db'' e'' h2
  exact save_ok_created_on_stable p
    (by rw [show ({ e' with publish_date := q } : BlogEntry).created_on = e'.created_on from rfl, h1])
    hy h2

/-- C7, witness: `entryPub` (sentinel `created_on`, `publish_date = dPast`)
is stored with `created_on = dPast`, and re-saving the stored row with
`publish_date = dOther` leaves `created_on = dPast`. -/
theorem C7_first_publish_sets_created_on_witness :
    storedPub.created_on = some dPast ∧ resavedInput.created_on = some dPast :=
  have H := C7_first_publish_sets_created_on [entryPub] nowT entryPub
    [storedPub] storedPub dPast rfl rfl rfl (by decide) (by decide)
  ⟨H.1, H.2 [storedPub] nowT (some dOther) [resavedInput] resavedInput (by decide)⟩

/-- C8, counterexample: re-saving a stored entry verbatim (same title, slug
already assigned) can still change its slug: the probe only sees published
entries, so the unpublished `rowUnpub` (slug `"x"`) collides with the
published `rowPub` (slug `"x"`) on re-save and is renamed to `"x-2"`. -/
theorem C8_counterexample :
    (BlogEntry.save [rowPub, rowUnpub] nowT rowUnpub).map (fun p => p.2.slug) =
      Except.ok "x-2" ∧
    (BlogEntry.save [rowPub, rowUnpub] nowT rowUnpub).map (fun p => p.2.slug) ≠
      Except.ok rowUnpub.slug := by
  refine ⟨by decide, by decide⟩

/-- C8, amended: re-saving an already-stored entry whose slug is assigned
(and whose `created_on` is set) leaves its slug unchanged, provided no other
entry of the default published scope currently holds that slug — the probe,
which excludes the entry's own identity, then re-selects the current slug as
its first candidate. -/
theorem C8_resave_keeps_slug (db : List BlogEntry) (now : DateTime)
    (e : BlogEntry) (k : Nat) (d : DateTime) (hpk : e.pk = some k)
    (hslug : e.slug ≠ "") (hco : e.created_on = some d)
    (hfree : ∀ r ∈ db, entryVisible now r = true → r.pk ≠ some k → r.slug ≠ e.slug) :
    (BlogEntry.save db now e).map (fun p => p.2.slug) = Except.ok e.slug := by
  obtain ⟨p, hp⟩ := save_ok_of_created_on_some d hco
  have hs : p.2.slug = e.slug := by
    have hsl := save_ok_slug
      (show BlogEntry.save db now e = Except.ok (p.1, p.2) from hp)
    rw [if_neg hslug] at hsl
    have hclash : slugClash db now e.pk (create_slug e.slug 1) = false := by
      rw [create_slug_one, slugClash_eq_false_iff]
      intro r hr
      have hr1 := List.mem_filter.mp hr
      have hr2 := List.mem_filter.mp hr1.1
      apply hfree r hr2.1 hr2.2
      have hb : r.pk ≠ e.pk := by simpa using hr1.2
      rw [← hpk]
      exact hb
    rw [hsl, show findSlug db now e.pk e.slug (db.length + 1) 1 = create_slug e.slug 1 from
      by simp [findSlug, hclash], create_slug_one]
  rw [hp]
  simp only [Except.map]
  rw [hs]

/-- C8, witness: re-saving the published `rowShown` (slug `"hello"`, no
competing visible row) keeps slug `"hello"`. -/
theorem C8_resave_keeps_slug_witness :
    (BlogEntry.save [rowShown] nowT rowShown).map (fun p => p.2.slug) =
      Except.ok "hello" :=
  C8_resave_keeps_slug [rowShown] nowT rowShown 1 ⟨100, 0⟩ rfl (by decide) rfl
    (by decide)

/-- C9: an entry saved with `is_published = true`, `created_on` at the
year-9999 sentinel and `publish_date = null` is stored with
`created_on = null`: the null `publish_date` is copied without a guard
instead of keeping the sentinel or rejecting the write. -/
theorem C9_null_publish_date_copied (db : List BlogEntry) (now : DateTime)
    (e : BlogEntry) (hpub : e.is_published = true)
    (hco : e.created_on = some datetimeMax) (hpd : e.publish_date = none) :
    ∃ p, BlogEntry.save db now e = Except.ok p ∧ p.2.created_on = none := by
  obtain ⟨p, hp⟩ := save_ok_of_created_on_some datetimeMax hco
  refine ⟨p, hp, ?_⟩
  have := save_ok_created_on_sentinel hpub hco
    (show BlogEntry.save db now e = Except.ok (p.1, p.2) from hp)
  rw [this, hpd]

/-- C9, witness: saving `entryNoPd` stores `created_on = none`. -/
theorem C9_null_publish_date_copied_witness :
    ∃ p, BlogEntry.save [] nowT entryNoPd = Except.ok p ∧ p.2.created_on = none :=
  C9_null_publish_date_copied [] nowT entryNoPd rfl rfl rfl

/-- C10: the singleton guard raises exactly when the stored count is 1 and
the instance has no identity; in particular with two or more stored rows a
fresh save proceeds without error. -/
theorem C10_guard_only_when_count_one :
    ∀ (db : List Blog) (b : Blog),
      ((∃ msg, Blog.save db b = Except.error msg) ↔
        db.length = 1 ∧ b.pk = none) ∧
      (2 ≤ db.length → b.pk = none → ∃ p, Blog.save db b = Except.ok p) := by
  intro db b
  constructor
  · unfold Blog.save
    by_cases h : db.length = 1 ∧ b.pk = none
    · rw [if_pos h]
      simp [h]
    · rw [if_neg h]
      simp [h]
  · intro hlen _
    unfold Blog.save
    rw [if_neg (by omega)]
    exact ⟨_, rfl⟩

/-- C10, witness: with two stored rows, saving the identity-less `blogNew`
succeeds. -/
theorem C10_guard_only_when_count_one_witness :
    ∃ p, Blog.save [blogOne, blogTwo] blogNew = Except.ok p :=
  (C10_guard_only_when_count_one [blogOne, blogTwo] blogNew).2 (by decide) rfl

end Blogango
